import Mathlib

/-!
Verification of the LLM_ETL_UI repository against its natural-language
specification.  The Python source is shallowly embedded: pure helper
functions become Lean functions over `Nat`/`String`/`List String`;
scripts are represented by their list of lines (the Python code itself
splits every script on `"\n"` before processing and re-joins at the
end); pandas dataframes are represented by per-column statistics;
stateful workflow nodes become pure functions on an explicit
`WorkflowState` record, with external effects (file system, Snowflake
connections, the LLM endpoint, the Python byte-compiler) supplied as
oracle parameters.  Machine floats used for percentage thresholds in
the source (`variance <= 5`, `unique >= n * 0.95`, ...) are embedded as
exact rational comparisons written with cross-multiplied naturals.
-/

namespace ETL

/-! ## Python string primitives.

The core `String` library functions (`trim`, `startsWith`, `splitOn`,
`toLower`, ...) are implemented over byte positions and do not reduce
in the kernel, so the corresponding Python string operations are
re-implemented here over `String.data` (`List Char`).  Python's
`str.lower` is modelled as ASCII lowering (`Char.toLower`), which is
what the column-name heuristics rely on. -/

/-- `line.lstrip()` on the character list. -/
def stripL (l : List Char) : List Char := l.dropWhile Char.isWhitespace

/-- `line.rstrip()` on the character list. -/
def stripR (l : List Char) : List Char := (l.reverse.dropWhile Char.isWhitespace).reverse

/-- `line.strip()`. -/
def pyStrip (s : String) : String := ⟨stripL (stripR s.data)⟩

/-- `line.rstrip()`. -/
def pyRStrip (s : String) : String := ⟨stripR s.data⟩

/-- `s.startswith(p)`. -/
def startsWithS (s p : String) : Bool := p.data.isPrefixOf s.data

/-- `s.endswith(p)`. -/
def endsWithS (s p : String) : Bool := p.data.isSuffixOf s.data

/-- Whether `p` occurs in `s` (Python `p in s`), on character lists. -/
def hasInfix : List Char → List Char → Bool
  | [], p => p.isEmpty
  | s@(_ :: t), p => p.isPrefixOf s || hasInfix t p

/-- Python `p in s` for strings. -/
def containsSub (s p : String) : Bool := hasInfix s.data p.data

/-- `s.lower()` (ASCII). -/
def lowerS (s : String) : String := ⟨s.data.map Char.toLower⟩

/-- `len(line) - len(line.lstrip())`: the indentation width used
throughout `_fix_script_syntax`. -/
def indentOf (s : String) : Nat := s.data.length - (stripL s.data).length

/-- `_get_line_indent`: the leading run of spaces and tabs. -/
def lineIndent (s : String) : String :=
  ⟨s.data.takeWhile (fun c => c == ' ' || c == '\t')⟩

/-- `line.count(c)` for a single character. -/
def countC (s : String) (c : Char) : Nat := s.data.count c

/-! ## Record-count validation (`_validate_record_counts`,
`langgraph_etl_workflow.py` lines 1218-1300).

The Python function returns a dict with keys `status`, `message`,
`source_count`, `snowflake_count`, `processed_count`.  The
human-readable `message` string (which interpolates the counts and a
formatted percentage) is elided from the embedding; the `status` and
the three echoed counts are kept. -/

inductive VStatus where
  | success
  | warning
  | failed
deriving DecidableEq, Repr

structure CountValidation where
  status : VStatus
  source_count : Nat
  snowflake_count : Nat
  processed_count : Nat
deriving DecidableEq, Repr

/-- Embedding of `_validate_record_counts`.  `variance_percent <= 5`
(a float comparison of `abs(source - snowflake) / source * 100`) is
embedded exactly as `100 * |source - snowflake| <= 5 * source`, and
likewise for the 15% threshold. -/
def validateRecordCounts (source_count snowflake_count processed_count : Nat) :
    CountValidation :=
  if source_count = 0 then
    ⟨.warning, source_count, snowflake_count, processed_count⟩
  else if snowflake_count = 0 then
    ⟨.failed, source_count, snowflake_count, processed_count⟩
  else if source_count = snowflake_count then
    ⟨.success, source_count, snowflake_count, processed_count⟩
  else if processed_count > 0 ∧ processed_count = snowflake_count then
    ⟨.success, source_count, snowflake_count, processed_count⟩
  else if source_count > 0 then
    -- variance_percent = abs(source_count - snowflake_count) / source_count * 100,
    -- compared against 5 and 15 as exact rationals
    if 100 * (max source_count snowflake_count - min source_count snowflake_count) ≤
        5 * source_count then
      ⟨.success, source_count, snowflake_count, processed_count⟩
    else if 100 * (max source_count snowflake_count - min source_count snowflake_count) ≤
        15 * source_count then
      ⟨.warning, source_count, snowflake_count, processed_count⟩
    else
      ⟨.failed, source_count, snowflake_count, processed_count⟩
  else
    -- unreachable fallback branch of the source
    ⟨.warning, source_count, snowflake_count, processed_count⟩

/-- The verdict exactly as the specification sentence describes it,
written independently of the source: source 0 ⇒ warning; destination 0
⇒ failed; equal ⇒ success; processed matches destination (and is
positive) ⇒ success; otherwise classify the relative variance. -/
def specVerdict (source_count snowflake_count processed_count : Nat) : VStatus :=
  if source_count = 0 then .warning
  else if snowflake_count = 0 then .failed
  else if source_count = snowflake_count then .success
  else if processed_count > 0 ∧ processed_count = snowflake_count then .success
  else if 100 * (max source_count snowflake_count - min source_count snowflake_count) ≤
      5 * source_count then .success
  else if 100 * (max source_count snowflake_count - min source_count snowflake_count) ≤
      15 * source_count then .warning
  else .failed

/-! ## Primary-key candidate detection (`_find_primary_key_candidates`,
`llm_generator.py` lines 480-504).

A dataframe is embedded as its row count together with per-column
statistics; `reason` strings (which interpolate formatted percentages)
are elided. -/

inductive Confidence where
  | high
  | medium
  | low
deriving DecidableEq, Repr

structure ColStat where
  name : String
  uniqueCount : Nat
  nullCount : Nat
deriving DecidableEq, Repr

structure PKCandidate where
  column : String
  confidence : Confidence
deriving DecidableEq, Repr

/-- Per-column classification of `_find_primary_key_candidates`:
`unique_count == n and null_count == 0` ⇒ high;
elif `unique_count >= n * 0.95 and null_count <= n * 0.05` ⇒ medium
(float products embedded as exact cross-multiplications). -/
def pkClassify (n : Nat) (c : ColStat) : Option PKCandidate :=
  if c.uniqueCount = n ∧ c.nullCount = 0 then
    some ⟨c.name, .high⟩
  else if 100 * c.uniqueCount ≥ 95 * n ∧ 100 * c.nullCount ≤ 5 * n then
    some ⟨c.name, .medium⟩
  else
    none

structure DataFrame where
  nrows : Nat
  cols : List ColStat
deriving Repr

/-- Embedding of `_find_primary_key_candidates`: the Python loop
appends at most one candidate per column, in column order. -/
def findPrimaryKeyCandidates (df : DataFrame) : List PKCandidate :=
  df.cols.filterMap (pkClassify df.nrows)

/-- Claim-side classification, from the words of the claim: high
confidence exactly when distinct-count equals row count and null-count
is zero; medium confidence when distinct ≥ 95% of rows and nulls ≤ 5%
of rows but the high bar is not met; absent otherwise. -/
def specPkClassify (n : Nat) (c : ColStat) : Option PKCandidate :=
  if c.uniqueCount = n ∧ c.nullCount = 0 then
    some ⟨c.name, .high⟩
  else if (100 * c.uniqueCount ≥ 95 * n ∧ 100 * c.nullCount ≤ 5 * n) ∧
      ¬ (c.uniqueCount = n ∧ c.nullCount = 0) then
    some ⟨c.name, .medium⟩
  else
    none

/-! ## Temporal-column detection (`_find_date_columns`,
`llm_generator.py` lines 506-557).

A column is embedded by its pandas dtype class, the distinct-count of
its raw values (`df[col].nunique(dropna=True)`), and the statistics of
`pd.to_datetime(df[col], errors='coerce')`: the number of values that
parsed (`parsed.notna().sum()`) and the number of distinct parsed
values (`parsed.nunique(dropna=True)`).  `reason` strings are elided
as in the primary-key embedding. -/

inductive PDtype where
  | datetime
  | numeric
  | other
deriving DecidableEq, Repr

structure DfColumn where
  name : String
  dtype : PDtype
  distinctCount : Nat
  parsedValid : Nat
  parsedDistinct : Nat
deriving DecidableEq, Repr

structure DateCandidate where
  column : String
  confidence : Confidence
deriving DecidableEq, Repr

structure ProfiledFrame where
  nrows : Nat
  cols : List DfColumn
deriving Repr

/-- `any(pattern in col.lower() for pattern in [...])`. -/
def nameSuggestsDate (name : String) : Bool :=
  ["date", "time", "created", "updated", "modified", "_dt", "_ts"].any
    (fun pat => containsSub (lowerS name) pat)

/-- One iteration of the `_find_date_columns` loop.  `date_info` starts
as a low-confidence record; the datetime branch `continue`s, the
numeric branch `continue`s, the parse branch may update-and-append the
record, and the name heuristic appends only when the current record is
not already in the candidate list (Python `date_info not in
candidates`, which compares the mutated dict by equality). -/
def dateStep (n : Nat) (acc : List DateCandidate) (c : DfColumn) : List DateCandidate :=
  match c.dtype with
  | .datetime =>
    if c.distinctCount > 1 then acc ++ [⟨c.name, .high⟩] else acc
  | .numeric => acc
  | .other =>
    -- valid_dates >= len(df) * 0.8 and unique_dates > 1 ⇒ high;
    -- elif valid_dates >= len(df) * 0.5 ⇒ medium
    let parsed : Option Confidence :=
      if 100 * c.parsedValid ≥ 80 * n ∧ c.parsedDistinct > 1 then some .high
      else if 100 * c.parsedValid ≥ 50 * n then some .medium
      else none
    let acc' := match parsed with
      | some conf => acc ++ [⟨c.name, conf⟩]
      | none => acc
    let cur : DateCandidate := match parsed with
      | some conf => ⟨c.name, conf⟩
      | none => ⟨c.name, .low⟩
    if nameSuggestsDate c.name ∧ cur ∉ acc' then acc' ++ [⟨c.name, .medium⟩]
    else acc'

/-- Embedding of `_find_date_columns`. -/
def findDateColumns (df : ProfiledFrame) : List DateCandidate :=
  df.cols.foldl (dateStep df.nrows) []

/-- The per-column contribution of `_find_date_columns`, once the
membership test of the name heuristic is resolved (a low-confidence
record is never in the candidate list, and a record just appended
always is). -/
def dateCol (n : Nat) (c : DfColumn) : List DateCandidate :=
  match c.dtype with
  | .datetime =>
    if c.distinctCount > 1 then [⟨c.name, .high⟩] else []
  | .numeric => []
  | .other =>
    if 100 * c.parsedValid ≥ 80 * n ∧ c.parsedDistinct > 1 then [⟨c.name, .high⟩]
    else if 100 * c.parsedValid ≥ 50 * n then [⟨c.name, .medium⟩]
    else if nameSuggestsDate c.name then [⟨c.name, .medium⟩]
    else []

/-! ## Structural script repair (`_fix_script_syntax`,
`langgraph_etl_workflow.py` lines 1420-1553, and `_get_line_indent`).

Scripts are embedded as their list of lines.  The Python function
makes two index-based passes over the line list; both are embedded as
recursive functions: the first pass handles incomplete block
statements and orphaned handlers, the second pass synthesizes
`except` handlers for `try:` blocks that lack one. -/

def blockKeywords : List String :=
  ["if ", "elif ", "else:", "for ", "while ", "def ", "class ",
   "try:", "except", "finally:", "with "]

/-- The block-statement test of the first pass (without the trailing
colon requirement, which is checked separately). -/
def isBlockStart (st : String) : Bool :=
  blockKeywords.any (fun k => startsWithS st k)

def isHandlerStart (st : String) : Bool :=
  startsWithS st "except" || startsWithS st "finally:"

/-- Whether the next line exists, is non-blank and is indented more
than the current line (the `next_line_indented` check). -/
def nextIndented (l : String) (rest : List String) : Bool :=
  match rest with
  | [] => false
  | nl :: _ => decide (pyStrip nl ≠ "") && decide (indentOf l < indentOf nl)

/-- `self._get_line_indent(line) + '    pass'`. -/
def passLine (l : String) : String := lineIndent l ++ "    pass"

/-- First pass of `_fix_script_syntax`: complete empty block
statements with `pass`, fix orphaned `except`/`finally` lines.  The
`try:` branch of the source scans ahead but appends nothing beyond the
line itself, so it is embedded as a plain copy. -/
def firstPass : List String → List String
  | [] => []
  | l :: rest =>
    let st := pyStrip l
    if endsWithS st ":" && isBlockStart st then
      l :: ((if nextIndented l rest then [] else [passLine l]) ++ firstPass rest)
    else if (startsWithS st "except" || startsWithS st "finally:") && ! endsWithS st ":" then
      (if startsWithS st "except" then pyRStrip l ++ ":" else l) ::
        ((if nextIndented l rest then [] else [passLine l]) ++ firstPass rest)
    else if startsWithS st "try:" then
      l :: firstPass rest
    else
      l :: firstPass rest

/-- The scanning loop of the second pass: starting after a `try:` line
of indentation `t`, walk forward treating blank lines (and deeper or
comment lines) as body, and stop either at a same-indentation
`except`/`finally` (handler found, scanning resumes at it) or at a
non-comment line of indentation ≤ `t` (end of block).  Returns the
body lines, whether a handler was found, and the remaining lines. -/
def scanTry (t : Nat) : List String → List String × Bool × List String
  | [] => ([], false, [])
  | c :: cs =>
    let st := pyStrip c
    let ci := if st ≠ "" then indentOf c else t + 1
    if ci = t ∧ isHandlerStart st then
      ([], true, c :: cs)
    else if ci ≤ t ∧ st ≠ "" ∧ startsWithS st "#" = false then
      ([], false, c :: cs)
    else
      let r := scanTry t cs
      (c :: r.1, r.2.1, r.2.2)

lemma scanTry_rest_length (t : Nat) (ls : List String) :
    (scanTry t ls).2.2.length ≤ ls.length := by
  induction ls with
  | nil => simp [scanTry]
  | cons c cs ih =>
    unfold scanTry
    dsimp only
    split_ifs <;> simp <;> omega

def mkIndent (t : Nat) : String := ⟨List.replicate t ' '⟩

/-- The generic handler synthesized by the second pass. -/
def handlerLines (t : Nat) : List String :=
  [mkIndent t ++ "except Exception as e:",
   mkIndent t ++ "    print(f\x27Error: \x7be\x7d\x27)",
   mkIndent t ++ "    pass"]

/-- Second pass of `_fix_script_syntax`, with explicit fuel so that
the kernel can evaluate it (each step consumes at least one line, so
fuel `ls.length` always suffices; see `secondPassGo_fuel`). -/
def secondPassGo : Nat → List String → List String
  | 0, _ => []
  | _ + 1, [] => []
  | fuel + 1, l :: rest =>
    if startsWithS (pyStrip l) "try:" then
      let r := scanTry (indentOf l) rest
      l :: (r.1 ++ (if r.2.1 then [] else handlerLines (indentOf l)) ++ secondPassGo fuel r.2.2)
    else
      l :: secondPassGo fuel rest

/-- Second pass of `_fix_script_syntax`: at each `try:` line, scan for
a same-indentation handler; if none is found before the block ends,
append the body and synthesize a generic handler, then resume
processing at the first line after the block. -/
def secondPass (ls : List String) : List String := secondPassGo ls.length ls

/-- Embedding of `_fix_script_syntax`. -/
def fixScriptSyntax (lines : List String) : List String :=
  secondPass (firstPass lines)

/-- Whether every `try:` line of a script finds a same-indentation
`except`/`finally` before its block ends (the property the claim
asserts of the repaired script; a `try:` without one is a Python
syntax error). -/
def allTriesHandled : List String → Bool
  | [] => true
  | l :: rest =>
    (if startsWithS (pyStrip l) "try:" then (scanTry (indentOf l) rest).2.1 else true) &&
      allTriesHandled rest

/-- Like `allTriesHandled`, but checked only for the `try:` lines that
are not nested inside the scanned body of an earlier `try:`: at each
`try:` line the walk requires a same-indentation handler and then
resumes after the scanned block, exactly as the second pass does
(fuel-structural; `ls.length` fuel always suffices, see
`topTriesGo_fuel`). -/
def topTriesGo : Nat → List String → Bool
  | _, [] => true
  | 0, _ :: _ => false
  | fuel + 1, l :: rest =>
    if startsWithS (pyStrip l) "try:" then
      (scanTry (indentOf l) rest).2.1 && topTriesGo fuel (scanTry (indentOf l) rest).2.2
    else
      topTriesGo fuel rest

/-- Every `try:` block not nested inside another `try:` block's
scanned body has a same-indentation `except`/`finally` before its
block ends. -/
def topTriesHandled (ls : List String) : Bool := topTriesGo ls.length ls

/-! ## Configuration injection (`_inject_snowflake_config` lines
1302-1384 and `_remove_conflicting_config` lines 1386-1418).

Both functions split the script on `"\n"`, work line by line and
re-join; they are embedded over the line list.  The f-string
placeholders `{account}`, `{user}`, `{warehouse}`, `{database}`,
`{schema}` are instantiated with the documented fallback values
(`Config.X or 'your_x'`), fixing one deployment configuration. -/

/-- The trigger that starts skipping in `_remove_conflicting_config`. -/
def isConfigTrigger (st : String) : Bool :=
  startsWithS st "AWS_CONFIG" || startsWithS st "SNOWFLAKE_CONFIG" ||
    startsWithS st "CONFIG_VALID" || containsSub st "validate_config"

/-- The statement test that ends a skipped block (a new `def`, `class`,
`if`, `import`, `from`, or an assignment line not ending in `:`). -/
def isBlockEnd (st : String) : Bool :=
  startsWithS st "def " || startsWithS st "class " || startsWithS st "if " ||
    startsWithS st "import " || startsWithS st "from " ||
    (! endsWithS st ":" && st.data.contains '\x3d')

/-- The loop of `_remove_conflicting_config`, carrying `skip_block` and
`brace_count`. -/
def removeLoop : Bool → Int → List String → List String
  | _, _, [] => []
  | skip, bc, l :: ls =>
    let st := pyStrip l
    if isConfigTrigger st then
      removeLoop true 0 ls
    else if skip then
      let bc' := bc + (countC l '\x7b' : Int) - (countC l '\x7d' : Int)
      if bc' ≤ 0 ∧ st ≠ "" ∧ startsWithS st "#" = false ∧ isBlockEnd st = true then
        l :: removeLoop false bc' ls
      else
        removeLoop true bc' ls
    else
      l :: removeLoop skip bc ls

/-- Embedding of `_remove_conflicting_config`. -/
def removeConflictingConfig (ls : List String) : List String :=
  removeLoop false 0 ls

/-- A line at which injection happens: non-empty and not a comment,
import, or docstring opener. -/
def isInjectStop (l : String) : Bool :=
  let st := pyStrip l
  decide (st ≠ "") &&
    ! (startsWithS st "#" || startsWithS st "import " || startsWithS st "from " ||
       startsWithS st "\x22\x22\x22" || startsWithS st "\x27\x27\x27")

/-- The injection point: index of the first non-import, non-comment,
non-empty line, or 0 when no such line exists. -/
def injectionPoint (ls : List String) : Nat :=
  (ls.findIdx? isInjectStop).getD 0

/-- The `# ===...===` banner line of the injected block (79 equals
signs). -/
def bannerLine : String := "# " ++ ⟨List.replicate 79 '='⟩

/-- The lines of the `config_injection` f-string (with the documented
default configuration values), excluding the final blank line, which
is accounted for separately by the join decomposition. -/
def configInjectionLines : List String :=
  [bannerLine,
   "# CONFIGURATION INJECTION (Auto-generated by LangGraph workflow)",
   bannerLine,
   "import os",
   "",
   "# Snowflake configuration (using actual environment variables)",
   "SNOWFLAKE_CONFIG = \x7b",
   "    \x27account\x27: os.getenv(\x27SNOWFLAKE_ACCOUNT\x27, \x27your_account\x27),",
   "    \x27user\x27: os.getenv(\x27SNOWFLAKE_USER\x27, \x27your_user\x27),",
   "    \x27password\x27: os.getenv(\x27SNOWFLAKE_PASSWORD\x27, \x27your_password\x27),",
   "    \x27warehouse\x27: os.getenv(\x27SNOWFLAKE_WAREHOUSE\x27, \x27your_warehouse\x27),",
   "    \x27database\x27: os.getenv(\x27SNOWFLAKE_DATABASE\x27, \x27your_database\x27),",
   "    \x27schema\x27: os.getenv(\x27SNOWFLAKE_SCHEMA\x27, \x27your_schema\x27),",
   "\x7d",
   "",
   "# AWS configuration (using actual environment variables)",
   "AWS_CONFIG = \x7b",
   "    \x27aws_access_key_id\x27: os.getenv(\x27AWS_ACCESS_KEY_ID\x27),",
   "    \x27aws_secret_access_key\x27: os.getenv(\x27AWS_SECRET_ACCESS_KEY\x27),",
   "    \x27region_name\x27: os.getenv(\x27AWS_REGION\x27, \x27us-east-1\x27),",
   "\x7d",
   "",
   "# Validate configuration",
   "def validate_snowflake_config():",
   "    missing = [k for k, v in SNOWFLAKE_CONFIG.items() if not v or v.startswith(\x27your_\x27)]",
   "    aws_missing = [k for k, v in AWS_CONFIG.items() if not v]",
   "    ",
   "    if missing:",
   "        print(f\"⚠️  Missing Snowflake configuration: \x7b\x27, \x27.join(missing)\x7d\")",
   "    if aws_missing:",
   "        print(f\"⚠️  Missing AWS configuration: \x7b\x27, \x27.join(aws_missing)\x7d\")",
   "        ",
   "    if missing or aws_missing:",
   "        print(\"Please set environment variables or update config.py\")",
   "        return False",
   "    return True",
   "",
   "# Check configuration on import",
   "CONFIG_VALID = validate_snowflake_config()",
   "",
   "# Print configuration status",
   "if CONFIG_VALID:",
   "    print(\"✅ Configuration validated successfully\")",
   "else:",
   "    print(\"❌ Configuration validation failed - some operations may not work\")",
   "",
   bannerLine,
   "# END OF CONFIGURATION INJECTION",
   bannerLine]

/-- The line list of `'\n'.join(before).rstrip()`: trailing
whitespace-only lines disappear and the last remaining line loses its
trailing whitespace; an all-blank prefix collapses to a single empty
line (the lines of the empty string). -/
def linesRStrip (ls : List String) : List String :=
  match ls.reverse.dropWhile (fun l => pyStrip l == "") with
  | [] => [""]
  | x :: rest => rest.reverse ++ [pyRStrip x]

/-- The line list of `'\n'.join(after)` re-split: the identity, except
that joining no lines gives the empty string, whose line list is
`[""]`. -/
def linesJoin (ls : List String) : List String :=
  match ls with
  | [] => [""]
  | _ => ls

/-- Embedding of `_inject_snowflake_config`, as the line list of its
result: clean conflicting configuration, split at the injection point,
and splice in the configuration block (the `"\n\n"` separator and the
final blank line of the f-string each contribute one empty line). -/
def injectLines (ls : List String) : List String :=
  let cls := removeConflictingConfig ls
  let k := injectionPoint cls
  linesRStrip (cls.take k) ++ [""] ++ configInjectionLines ++ [""] ++ linesJoin (cls.drop k)

/-- The number of `p`-definition lines of a script: lines whose
stripped text starts with `p`. -/
def countConfigDefs (p : String) (ls : List String) : Nat :=
  (ls.filter (fun l => startsWithS (pyStrip l) p)).length

/-! ## Count extraction from execution output (`validate_ingestion_node`,
`langgraph_etl_workflow.py` lines 710-1025).

Every count pattern of the source has the form
`re.findall(r'<literal> (\d+) <literal>', output)`: a literal prefix,
one captured run of digits, and a literal suffix (possibly empty).
Since the suffix never starts with a digit, the greedy `\d+` followed
by the suffix matches exactly a maximal digit run followed by the
suffix, and `findall` scans left to right, resuming after each match.
`\d` is modelled as the ASCII digit test. -/

/-- `ds` interpreted as a decimal number (`int(ds)`). -/
def digitsToNat (ds : List Char) : Nat :=
  ds.foldl (fun a c => 10 * a + (c.toNat - 48)) 0

/-- Strip a literal prefix, or fail. -/
def dropLit (p s : List Char) : Option (List Char) :=
  if p.isPrefixOf s then some (s.drop p.length) else none

/-- Try to match `pre (\d+) suf` at the start of `s`; on success
return the captured number and the rest of the input. -/
def tryMatchNum (pre suf s : List Char) : Option (Nat × List Char) :=
  match dropLit pre s with
  | none => none
  | some r1 =>
    let ds := r1.takeWhile Char.isDigit
    if ds.isEmpty then none
    else
      match dropLit suf (r1.drop ds.length) with
      | none => none
      | some r2 => some (digitsToNat ds, r2)

/-- The scan of `re.findall`, with explicit fuel (one character is
consumed per step at minimum, so fuel `s.length` suffices). -/
def findallGo (pre suf : List Char) : Nat → List Char → List Nat
  | 0, _ => []
  | _ + 1, [] => []
  | fuel + 1, s@(_ :: cs) =>
    match tryMatchNum pre suf s with
    | some (n, rest) => n :: findallGo pre suf fuel rest
    | none => findallGo pre suf fuel cs

/-- `re.findall(r'pre(\d+)suf', out)`, as the list of captured
numbers. -/
def findallS (pre suf out : String) : List Nat :=
  findallGo pre.data suf.data out.data.length out.data

/-- The `rows_processed` computation of `validate_ingestion_node`
(lines 727-747): first match of `Successfully loaded (\d+) rows` when
its markers are present, then the max with the first match of
`(\d+) rows remaining` when the transformation markers are present. -/
def rowsProcessedOf (out : String) : Nat :=
  let r1 :=
    if containsSub out "Successfully loaded" && containsSub out "rows from" then
      match (findallS "Successfully loaded " " rows" out).head? with
      | some n => n
      | none => 0
    else 0
  if containsSub out "Data transformation completed" && containsSub out "rows remaining" then
    match (findallS "" " rows remaining" out).head? with
    | some n => max r1 n
    | none => r1
  else r1

/-- `snowflake_loading_successful = any(pattern in execution_output ...)`. -/
def snowflakeLoadingSuccessful (out : String) : Bool :=
  containsSub out "✅ Successfully inserted" ||
  containsSub out "✅ ETL process completed successfully!" ||
  containsSub out "📊 Insertion Summary:" ||
  containsSub out "Success rate:"

/-- The `inserted_rows` computation (lines 755-790): the *last* match
of `✅ Successfully inserted (\d+) rows`, or else the *first*
successful-rows count of the insertion summary. -/
def insertedRowsOf (out : String) : Nat :=
  if containsSub out "✅ Successfully inserted" then
    match (findallS "✅ Successfully inserted " " rows" out).getLast? with
    | some n => n
    | none => 0
  else if containsSub out "📊 Insertion Summary:" then
    match (findallS "✅ Successful rows: " "" out).head? with
    | some n => n
    | none => 0
  else 0

/-! ## The workflow record and its stages
(`langgraph_etl_workflow.py`: `ETLWorkflowState` lines 40-52 and the
node methods).

The TypedDict state is embedded as a record.  Fields that the source
reads with `state.get(...)` and tests for truthiness are `Option`s
(the strings assigned to them by the source are never empty, so
truthiness coincides with `isSome`).  External effects are oracle
parameters: the parsed-file record count, the Snowflake connection and
catalog, the subprocess run, the LLM endpoint, and Python's `compile`
(as `String → Option String`, returning the syntax-error text when
parsing fails).  File writes are returned as an explicit
`(filename, content)` list. -/

structure FileInfo where
  s3_url : String
  original_filename : String
deriving DecidableEq, Repr

structure Profiling where
  success : Bool
deriving DecidableEq, Repr

structure WorkflowState where
  workflow_id : String
  timestamp : String
  status : String
  file_info : FileInfo
  user_requirements : String
  profiling_data : Option Profiling
  generated_script : String
  script_path : Option String
  execution_output : String
  execution_error : Option String
  execution_success : Bool
  source_record_count : Nat
  records_processed : Nat
  snowflake_table_created : Bool
  snowflake_records_inserted : Nat
  snowflake_actual_count : Nat
  snowflake_error : Option String
  record_validation : Option CountValidation
deriving DecidableEq, Repr

/-- A wall-clock instant, as the fields `datetime.now()` exposes to
`strftime('%Y%m%d_%H%M%S')` (sub-second precision is irrelevant to the
identifier). -/
structure Timestamp where
  year : Nat
  month : Nat
  day : Nat
  hour : Nat
  minute : Nat
  second : Nat
deriving DecidableEq, Repr

/-- Decimal digits of a natural number (fuel-structural so the kernel
can evaluate it). -/
def natCharsGo : Nat → Nat → List Char
  | 0, _ => []
  | fuel + 1, n =>
    if n < 10 then [Nat.digitChar n]
    else natCharsGo fuel (n / 10) ++ [Nat.digitChar (n % 10)]

def natToStr (n : Nat) : String := ⟨natCharsGo (n + 1) n⟩

def intToStr (i : Int) : String :=
  if i < 0 then "-" ++ natToStr i.natAbs else natToStr i.natAbs

/-- `%m`, `%d`, `%H`, `%M`, `%S`: zero-padded to two digits. -/
def pad2 (n : Nat) : String := if n < 10 then "0" ++ natToStr n else natToStr n

/-- `%Y`: zero-padded to four digits. -/
def pad4 (n : Nat) : String :=
  if n < 10 then "000" ++ natToStr n
  else if n < 100 then "00" ++ natToStr n
  else if n < 1000 then "0" ++ natToStr n
  else natToStr n

/-- `datetime.now().strftime('%Y%m%d_%H%M%S')`. -/
def formatTs (t : Timestamp) : String :=
  pad4 t.year ++ pad2 t.month ++ pad2 t.day ++ "_" ++
    pad2 t.hour ++ pad2 t.minute ++ pad2 t.second

/-- `datetime.now().isoformat()` (to second precision). -/
def isoTs (t : Timestamp) : String :=
  pad4 t.year ++ "-" ++ pad2 t.month ++ "-" ++ pad2 t.day ++ "T" ++
    pad2 t.hour ++ ":" ++ pad2 t.minute ++ ":" ++ pad2 t.second

/-- `initialize_workflow` (lines 96-110): the identifier is `etl_`
followed by the formatted current instant — nothing else. -/
def initializeWorkflow (now : Timestamp) (st : WorkflowState) : WorkflowState :=
  { st with workflow_id := "etl_" ++ formatTs now,
            timestamp := isoTs now,
            status := "initialized",
            execution_success := false,
            snowflake_table_created := false,
            snowflake_records_inserted := 0 }

/-- `profile_data_node` (lines 112-138); the S3 profiling call is the
oracle `res` (`.error` models a raised exception, whose handler stores
`None` and leaves `status` untouched). -/
def profileDataNode (res : Except Unit Profiling) (st : WorkflowState) : WorkflowState :=
  match st.profiling_data with
  | some _ => { st with status := "profiled" }
  | none =>
    if st.file_info.s3_url ≠ "" ∧ endsWithS st.file_info.s3_url ".csv" then
      match res with
      | .ok p => { st with profiling_data := some p, status := "profiled" }
      | .error _ => { st with profiling_data := none }
    else
      { st with profiling_data := none, status := "profiled" }

/-- Lines of a string (`script.split('\n')`), structurally. -/
def splitLinesC : List Char → List (List Char)
  | [] => [[]]
  | c :: cs =>
    let r := splitLinesC cs
    if c = '\n' then [] :: r
    else
      match r with
      | h :: t => (c :: h) :: t
      | [] => [[c]]

def splitLines (s : String) : List String := (splitLinesC s.data).map (fun l => ⟨l⟩)

/-- `'\n'.join(lines)`. -/
def joinLinesC : List (List Char) → List Char
  | [] => []
  | [x] => x
  | x :: y :: xs => x ++ '\n' :: joinLinesC (y :: xs)

def joinLines (ls : List String) : String := ⟨joinLinesC (ls.map String.data)⟩

/-- `_inject_snowflake_config` on a whole script string. -/
def injectSnowflakeConfigStr (s : String) : String :=
  joinLines (injectLines (splitLines s))

/-- `_fix_script_syntax` on a whole script string. -/
def fixScriptSyntaxStr (s : String) : String :=
  joinLines (fixScriptSyntax (splitLines s))

/-- Oracles of `generate_script_node` (lines 140-194): the two LLM
calls, `_clean_script_response` (an external text transformation),
Python's `compile`, and `_generate_template_script` (a large template
literal depending on the file info; `.error` models the outer
exception handler). -/
structure GenEnv where
  enhanced : Except Unit String
  basic : Except Unit String
  cleaned : String → String
  compileCheck : String → Option String
  template : Except String String

/-- The template fallback of `generate_script_node`. -/
def fallbackTemplate (env : GenEnv) (st : WorkflowState) : WorkflowState :=
  match env.template with
  | .ok tmpl => { st with generated_script := tmpl, status := "script_generated" }
  | .error e =>
    { st with execution_error := some ("Script generation failed: " ++ e),
              status := "failed" }

/-- `generate_script_node`: generate with the LLM (enhanced when
profiling succeeded), clean, inject configuration, and keep the result
when it compiles; otherwise fall back to the template generator. -/
def generateScriptNode (env : GenEnv) (st : WorkflowState) : WorkflowState :=
  let llm := if (st.profiling_data.map Profiling.success).getD false
             then env.enhanced else env.basic
  match llm with
  | .ok raw =>
    let script := injectSnowflakeConfigStr (env.cleaned raw)
    match env.compileCheck script with
    | none => { st with generated_script := script, status := "script_generated" }
    | some _ => fallbackTemplate env st
  | .error _ => fallbackTemplate env st

/-- The warning banner prepended when neither the original nor the
repaired script compiles (note: it embeds `e2`, the error of the
*repaired* script). -/
def warningHeader (e2 wid : String) : String :=
  "# ⚠️  WARNING: This script has syntax issues that could not be auto-fixed\n# Original error: "
    ++ e2 ++
    "\n# Please review and fix manually before execution\n# Generated by LangGraph ETL Workflow: "
    ++ wid ++ "\n\n"

/-- The comment prefix of the debug copy. -/
def debugPrefix : String :=
  "# Original script before processing\n# This version may have syntax issues\n\n"

/-- `save_script_node` (lines 572-639): validate the script with
`compile`, repair on failure, mark unrepairable scripts with the
warning banner, always write the script file, and additionally write a
debug copy when `execution_error` is set.  Returns the new state and
the `(filename, content)` pairs written. -/
def saveScriptNode (compileCheck : String → Option String) (st : WorkflowState) :
    WorkflowState × List (String × String) :=
  let fname := st.workflow_id ++ "_etl_script.py"
  let debugName := st.workflow_id ++ "_debug_original.py"
  let st1 :=
    match compileCheck st.generated_script with
    | none => st
    | some _e =>
      let fixed := fixScriptSyntaxStr st.generated_script
      match compileCheck fixed with
      | none => { st with generated_script := fixed }
      | some e2 =>
        { st with
            generated_script := warningHeader e2 st.workflow_id ++ st.generated_script,
            execution_error := some ("Syntax validation failed: " ++ e2) }
  let st2 := { st1 with script_path := some fname, status := "script_saved" }
  let files := [(fname, st2.generated_script)] ++
    (if st2.execution_error.isSome then
      [(debugName, debugPrefix ++ st2.generated_script)] else [])
  (st2, files)

/-- Outcome of the `subprocess.run` call of `execute_script_node`. -/
inductive RunResult where
  | finished (returncode : Int) (stdout stderr : String)
  | timeout
  | launchError (msg : String)
deriving Repr

/-- `execute_script_node` (lines 641-708). -/
def executeScriptNode (run : RunResult) (st : WorkflowState) : WorkflowState :=
  match st.script_path with
  | none =>
    { st with
        execution_error := some "No script path available - script saving may have failed",
        execution_success := false,
        status := "execution_failed" }
  | some _ =>
    match run with
    | .finished code stdout stderr =>
      let st := { st with execution_output := stdout ++ "\n" ++ stderr,
                          execution_success := decide (code = 0) }
      if code = 0 then { st with status := "executed" }
      else
        { st with
            execution_error :=
              some ("Script execution failed with return code " ++ intToStr code),
            status := "execution_failed" }
    | .timeout =>
      { st with execution_error := some "Script execution timed out after 5 minutes",
                execution_success := false,
                status := "execution_timeout" }
    | .launchError m =>
      { st with execution_error := some ("Script execution error: " ++ m),
                execution_success := false,
                status := "execution_failed" }

/-- Oracles of `validate_ingestion_node`: the source-file record count
(`_count_source_records`), the completeness check of the Snowflake
settings, the connection attempt (`some msg` models a raised
exception), the Snowflake record count (`_count_snowflake_records`),
the recently-created-tables query, and `_create_table_from_file_info`
(`some msg` models its failure). -/
structure ValidateEnv where
  sourceCount : Nat
  configComplete : Bool
  connect : Option String
  snowCount : Nat
  recentTables : List String
  autoCreateError : Option String
deriving Repr

/-- Error classification of the `Failed to load data to Snowflake`
branch (lines 792-802). -/
def classifyLoadError (out : String) : String :=
  if containsSub out "String" && containsSub out "is too long and would be truncated" then
    "Column size too small - increase VARCHAR length"
  else if containsSub out "Binding data in type" then
    "Data type binding issue - timestamp conversion needed"
  else if containsSub out "your_account" || containsSub out "404 Not Found" then
    "Snowflake configuration incomplete"
  else
    "Snowflake loading failed - see execution output"

/-- The tail of `validate_ingestion_node` (lines 913-1025): the
configuration check, the Snowflake connection and catalog lookup, and
the exception handler. -/
def validateTail (env : ValidateEnv) (st : WorkflowState) (rows : Nat) : WorkflowState :=
  if env.configComplete = false then
    if rows > 0 then
      { st with
          record_validation := some (validateRecordCounts st.source_record_count 0 rows),
          snowflake_actual_count := 0,
          snowflake_table_created := true,
          snowflake_records_inserted := rows,
          records_processed := rows,
          status := "validated",
          snowflake_error := some "Configuration incomplete but data processed successfully" }
    else
      -- mock successful validation for development
      { st with snowflake_table_created := true,
                snowflake_records_inserted := 100,
                status := "validated" }
  else
    match env.connect with
    | some e =>
      if containsSub e "404 Not Found" || containsSub e "your_account" then
        { st with
            record_validation := some (validateRecordCounts st.source_record_count 0 rows),
            snowflake_actual_count := 0,
            snowflake_table_created := true,
            snowflake_records_inserted := 0,
            status := "validated",
            snowflake_error := some "Configuration incomplete - using mock validation" }
      else
        { st with snowflake_error := some ("Snowflake validation failed: " ++ e),
                  status := "validation_failed" }
    | none =>
      let st := { st with snowflake_actual_count := env.snowCount }
      let v := validateRecordCounts st.source_record_count env.snowCount rows
      if env.recentTables ≠ [] then
        { st with snowflake_table_created := true,
                  snowflake_records_inserted := env.snowCount,
                  record_validation := some v,
                  status := "validated" }
      else
        let st := { st with record_validation := some v }
        match env.autoCreateError with
        | none =>
          { st with snowflake_table_created := true,
                    snowflake_records_inserted := 0,
                    status := "validated" }
        | some msg =>
          { st with snowflake_error := some ("Auto-creation failed: " ++ msg),
                    status := "validation_warning" }

/-- `validate_ingestion_node` (lines 710-1025).  When
`execution_success` is false the node returns the record unchanged
(lines 714-716); otherwise it stores the source count, mines the
captured output, and reconciles. -/
def validateIngestionNode (env : ValidateEnv) (st : WorkflowState) : WorkflowState :=
  if st.execution_success = false then
    -- "⚠️ Skipping validation due to execution failure"
    st
  else
    let st := { st with source_record_count := env.sourceCount }
    let out := st.execution_output
    let rows := rowsProcessedOf out
    let inserted := insertedRowsOf out
    if containsSub out "Failed to load data to Snowflake" then
      let st := { st with
          snowflake_table_created := true,
          snowflake_records_inserted := 0,
          snowflake_error := some (classifyLoadError out),
          record_validation := some (validateRecordCounts env.sourceCount 0 rows),
          snowflake_actual_count := 0,
          status := "validated" }
      if rows > 0 then
        { st with records_processed := rows, snowflake_records_inserted := rows }
      else st
    else if snowflakeLoadingSuccessful out then
      if inserted > 0 then
        { st with
            record_validation := some (validateRecordCounts env.sourceCount inserted rows),
            snowflake_actual_count := inserted,
            snowflake_table_created := true,
            snowflake_records_inserted := inserted,
            records_processed := rows,
            status := "validated" }
      else
        -- legacy fallback pattern; on no match, fall through
        match (findallS "Successfully inserted " " rows" out).getLast? with
        | some n =>
          { st with
              record_validation := some (validateRecordCounts env.sourceCount n rows),
              snowflake_actual_count := n,
              snowflake_table_created := true,
              snowflake_records_inserted := n,
              records_processed := rows,
              status := "validated" }
        | none => validateTail env st rows
    else validateTail env st rows

/-- `finalize_workflow` (lines 1096-1115): writes the summary log and
marks the record completed. -/
def finalizeWorkflow (st : WorkflowState) : WorkflowState :=
  { st with status := "completed" }

/-- A concrete post-execution-failure record used as witness input. -/
def failedRunState : WorkflowState :=
  { workflow_id := "etl_20261012_120000",
    timestamp := "2026-10-12T12:00:00",
    status := "execution_failed",
    file_info := ⟨"s3://bucket/data.csv", "data.csv"⟩,
    user_requirements := "load to snowflake",
    profiling_data := none,
    generated_script := "print(1)",
    script_path := some "etl_20261012_120000_etl_script.py",
    execution_output := "Traceback (most recent call last): boom",
    execution_error := some "Script execution failed with return code 1",
    execution_success := false,
    source_record_count := 0,
    records_processed := 0,
    snowflake_table_created := false,
    snowflake_records_inserted := 0,
    snowflake_actual_count := 0,
    snowflake_error := none,
    record_validation := none }

/-- A concrete oracle environment for the Validate stage. -/
def sampleValidateEnv : ValidateEnv :=
  { sourceCount := 100,
    configComplete := true,
    connect := none,
    snowCount := 100,
    recentTables := ["ETL_DATA_120000"],
    autoCreateError := none }

end ETL

namespace ETL

lemma dateCol_not_low (n : Nat) (c : DfColumn) :
    ∀ x ∈ dateCol n c, x.confidence ≠ .low := by
  intro x hx
  obtain ⟨nm, dt, dc, pv, pd⟩ := c
  cases dt <;> unfold dateCol at hx <;> dsimp at hx <;>
    (try split_ifs at hx) <;> simp_all

lemma dateCol_column (n : Nat) (c : DfColumn) :
    ∀ x ∈ dateCol n c, x.column = c.name := by
  intro x hx
  obtain ⟨nm, dt, dc, pv, pd⟩ := c
  cases dt <;> unfold dateCol at hx <;> dsimp at hx <;>
    (try split_ifs at hx) <;> simp_all

lemma dateStep_eq (n : Nat) (acc : List DateCandidate) (c : DfColumn)
    (h : ∀ x ∈ acc, x.confidence ≠ .low) :
    dateStep n acc c = acc ++ dateCol n c := by
  unfold dateStep dateCol
  cases c.dtype
  · split_ifs <;> simp
  · simp
  · by_cases h80 : 100 * c.parsedValid ≥ 80 * n ∧ c.parsedDistinct > 1
    · simp [h80]
    · by_cases h50 : 100 * c.parsedValid ≥ 50 * n
      · simp [h80, h50]
      · have hlow : (⟨c.name, .low⟩ : DateCandidate) ∉ acc := by
          intro hmem
          exact h _ hmem rfl
        by_cases hname : nameSuggestsDate c.name
        · simp [h80, h50, hname, hlow]
        · simp [h80, h50, hname]

lemma foldl_dateStep (n : Nat) (cols : List DfColumn) (acc : List DateCandidate)
    (h : ∀ x ∈ acc, x.confidence ≠ .low) :
    cols.foldl (dateStep n) acc = acc ++ cols.flatMap (dateCol n) := by
  induction cols generalizing acc with
  | nil => simp
  | cons c cs ih =>
    rw [List.foldl_cons, dateStep_eq n acc c h, ih, List.flatMap_cons, List.append_assoc]
    intro x hx
    rcases List.mem_append.mp hx with h1 | h2
    · exact h x h1
    · exact dateCol_not_low n c x h2

lemma findDateColumns_eq (df : ProfiledFrame) :
    findDateColumns df = df.cols.flatMap (dateCol df.nrows) := by
  unfold findDateColumns
  rw [foldl_dateStep df.nrows df.cols [] (by simp)]
  simp

lemma dateCol_names_sub (n : Nat) (cols : List DfColumn) :
    ((cols.flatMap (dateCol n)).map DateCandidate.column).Sublist
      (cols.map DfColumn.name) := by
  induction cols with
  | nil => simp
  | cons c cs ih =>
    rw [List.flatMap_cons, List.map_append, List.map_cons]
    have hc : ((dateCol n c).map DateCandidate.column).Sublist [c.name] := by
      obtain ⟨nm, dt, dc, pv, pd⟩ := c
      cases dt <;> unfold dateCol <;> dsimp <;> (try split_ifs) <;>
        first
          | exact List.nil_sublist _
          | exact List.Sublist.refl _
    exact List.Sublist.append hc ih

/-! Helper lemmas for the configuration-injection theorem. -/

lemma dropWhile_idem (p : Char → Bool) (l : List Char) :
    List.dropWhile p (List.dropWhile p l) = List.dropWhile p l := by
  induction l with
  | nil => rfl
  | cons a l ih =>
    rw [List.dropWhile_cons]
    by_cases h : p a = true
    · rw [if_pos h, ih]
    · rw [if_neg h, List.dropWhile_cons, if_neg h]

lemma stripR_idem (l : List Char) : stripR (stripR l) = stripR l := by
  unfold stripR
  rw [List.reverse_reverse, dropWhile_idem]

lemma pyStrip_pyRStrip (x : String) : pyStrip (pyRStrip x) = pyStrip x := by
  apply String.ext
  show stripL (stripR (stripR x.data)) = stripL (stripR x.data)
  rw [stripR_idem]

lemma countConfigDefs_eq_zero {p : String} {ls : List String}
    (h : ∀ l ∈ ls, startsWithS (pyStrip l) p = false) :
    countConfigDefs p ls = 0 := by
  unfold countConfigDefs
  induction ls with
  | nil => rfl
  | cons l rest ih =>
    rw [List.filter_cons]
    simp only [h l (by simp)]
    exact ih (fun x hx => h x (by simp [hx]))

lemma countConfigDefs_append (p : String) (a b : List String) :
    countConfigDefs p (a ++ b) = countConfigDefs p a + countConfigDefs p b := by
  unfold countConfigDefs
  rw [List.filter_append, List.length_append]

lemma removeLoop_no_trigger (skip : Bool) (bc : Int) (ls : List String) :
    ∀ l ∈ removeLoop skip bc ls, isConfigTrigger (pyStrip l) = false := by
  induction ls generalizing skip bc with
  | nil => intro l hl; cases hl
  | cons x xs ih =>
    intro l hl
    rw [removeLoop] at hl
    by_cases htr : isConfigTrigger (pyStrip x) = true
    · simp only [htr, if_true] at hl
      exact ih true 0 l hl
    · rw [Bool.not_eq_true] at htr
      simp only [htr, Bool.false_eq_true, if_false] at hl
      by_cases hskip : skip = true
      · simp only [hskip, if_true] at hl
        split_ifs at hl with hcond
        · rcases List.mem_cons.mp hl with rfl | hmem
          · exact htr
          · exact ih false _ l hmem
        · exact ih true _ l hl
      · rw [Bool.not_eq_true] at hskip
        subst hskip
        simp only [Bool.false_eq_true, if_false] at hl
        rcases List.mem_cons.mp hl with rfl | hmem
        · exact htr
        · exact ih false bc l hmem

lemma linesRStrip_count_zero {p : String} {xs : List String}
    (hp0 : startsWithS (pyStrip "") p = false)
    (h : ∀ l ∈ xs, startsWithS (pyStrip l) p = false) :
    countConfigDefs p (linesRStrip xs) = 0 := by
  unfold linesRStrip
  cases hdw : xs.reverse.dropWhile (fun l => pyStrip l == "") with
  | nil =>
    apply countConfigDefs_eq_zero
    intro l hl
    simp only [List.mem_singleton] at hl
    subst hl
    exact hp0
  | cons x rest =>
    apply countConfigDefs_eq_zero
    intro l hl
    have hsubset : ∀ y ∈ x :: rest, y ∈ xs := by
      intro y hy
      have h1 : y ∈ xs.reverse.dropWhile (fun l => pyStrip l == "") := hdw ▸ hy
      have h2 : y ∈ xs.reverse := (List.dropWhile_sublist _).subset h1
      exact List.mem_reverse.mp h2
    rcases List.mem_append.mp hl with h1 | h2
    · exact h l (hsubset l (by simp [List.mem_reverse.mp h1]))
    · simp only [List.mem_singleton] at h2
      subst h2
      rw [pyStrip_pyRStrip]
      exact h x (hsubset x (by simp))

lemma linesJoin_count_zero {p : String} {xs : List String}
    (hp0 : startsWithS (pyStrip "") p = false)
    (h : ∀ l ∈ xs, startsWithS (pyStrip l) p = false) :
    countConfigDefs p (linesJoin xs) = 0 := by
  unfold linesJoin
  cases xs with
  | nil =>
    apply countConfigDefs_eq_zero
    intro l hl
    simp only [List.mem_singleton] at hl
    subst hl
    exact hp0
  | cons x rest => exact countConfigDefs_eq_zero h

lemma inject_count_one (p : String)
    (hp0 : startsWithS (pyStrip "") p = false)
    (hcfg : countConfigDefs p configInjectionLines = 1)
    (himp : ∀ st : String, isConfigTrigger st = false → startsWithS st p = false) :
    ∀ ls : List String, countConfigDefs p (injectLines ls) = 1 := by
  intro ls
  unfold injectLines
  have hcls : ∀ l ∈ removeConflictingConfig ls, startsWithS (pyStrip l) p = false :=
    fun l hl => himp _ (removeLoop_no_trigger false 0 ls l hl)
  rw [countConfigDefs_append, countConfigDefs_append, countConfigDefs_append,
    countConfigDefs_append]
  rw [linesRStrip_count_zero hp0
    (fun l hl => hcls l (List.take_subset _ _ hl))]
  rw [linesJoin_count_zero hp0
    (fun l hl => hcls l (List.drop_subset _ _ hl))]
  have hblank : countConfigDefs p [""] = 0 := by
    apply countConfigDefs_eq_zero
    intro l hl
    simp only [List.mem_singleton] at hl
    subst hl
    exact hp0
  rw [hblank, hcfg]

/-! Helper lemmas for the structural-repair theorems. -/

lemma secondPassGo_fuel (f₁ : Nat) :
    ∀ (f₂ : Nat) (ls : List String), ls.length ≤ f₁ → ls.length ≤ f₂ →
      secondPassGo f₁ ls = secondPassGo f₂ ls := by
  induction f₁ with
  | zero =>
    intro f₂ ls h₁ h₂
    have hls : ls = [] := List.length_eq_zero.mp (Nat.le_zero.mp h₁)
    subst hls
    cases f₂ <;> rfl
  | succ f ih =>
    intro f₂ ls h₁ h₂
    cases ls with
    | nil => cases f₂ <;> rfl
    | cons l rest =>
      cases f₂ with
      | zero => simp at h₂
      | succ g =>
        rw [secondPassGo, secondPassGo]
        simp only [List.length_cons] at h₁ h₂
        by_cases htry : startsWithS (pyStrip l) "try:" = true
        · simp only [htry, if_true]
          have hr := scanTry_rest_length (indentOf l) rest
          rw [ih g _ (by omega) (by omega)]
        · simp only [htry, Bool.false_eq_true, if_false]
          rw [ih g rest (by omega) (by omega)]

lemma secondPass_cons (l : String) (rest : List String) :
    secondPass (l :: rest) =
      if startsWithS (pyStrip l) "try:" then
        l :: ((scanTry (indentOf l) rest).1 ++
          (if (scanTry (indentOf l) rest).2.1 then [] else handlerLines (indentOf l)) ++
          secondPass (scanTry (indentOf l) rest).2.2)
      else
        l :: secondPass rest := by
  show secondPassGo (rest.length + 1) (l :: rest) = _
  rw [secondPassGo]
  by_cases htry : startsWithS (pyStrip l) "try:" = true
  · simp only [htry, if_true]
    rw [secondPassGo_fuel rest.length _ _ (scanTry_rest_length _ _) le_rfl]
    rfl
  · simp only [htry, Bool.false_eq_true, if_false]
    rfl


lemma isBlockStart_false {st : String} (h : isBlockStart st = false) :
    startsWithS st "except" = false ∧ startsWithS st "finally:" = false ∧
      startsWithS st "try:" = false := by
  unfold isBlockStart blockKeywords at h
  simp only [List.any_cons, List.any_nil, Bool.or_eq_false_iff] at h
  exact ⟨h.2.2.2.2.2.2.2.2.1, h.2.2.2.2.2.2.2.2.2.1, h.2.2.2.2.2.2.2.1⟩

lemma isHandlerStart_false {st : String} (h : isBlockStart st = false) :
    isHandlerStart st = false := by
  obtain ⟨he, hf, -⟩ := isBlockStart_false h
  unfold isHandlerStart
  rw [he, hf]
  rfl

lemma firstPass_plain_cons {l : String} (rest : List String)
    (h : isBlockStart (pyStrip l) = false) :
    firstPass (l :: rest) = l :: firstPass rest := by
  obtain ⟨he, hf, ht⟩ := isBlockStart_false h
  rw [firstPass]
  simp [h, he, hf, ht]

lemma firstPass_plain (L : List String)
    (h : ∀ l ∈ L, isBlockStart (pyStrip l) = false) :
    firstPass L = L := by
  induction L with
  | nil => rfl
  | cons l rest ih =>
    rw [firstPass_plain_cons rest (h l (by simp)), ih (fun x hx => h x (by simp [hx]))]

lemma firstPass_append_plain (A xs : List String)
    (hA : ∀ l ∈ A, isBlockStart (pyStrip l) = false) :
    firstPass (A ++ xs) = A ++ firstPass xs := by
  induction A with
  | nil => rfl
  | cons a A' ih =>
    rw [List.cons_append, firstPass_plain_cons _ (hA a (by simp)),
      ih (fun x hx => hA x (by simp [hx])), List.cons_append]

lemma stripL_replicate_append (t : Nat) (l : List Char) :
    stripL (List.replicate t ' ' ++ l) = stripL l := by
  induction t with
  | zero => rfl
  | succ n ih =>
    rw [List.replicate_succ, List.cons_append]
    unfold stripL at ih ⊢
    rw [List.dropWhile_cons]
    simp [ih]

lemma stripR_try (L : List Char) :
    stripR (L ++ "try:".data) = L ++ "try:".data := by
  unfold stripR
  rw [List.reverse_append]
  rw [show "try:".data.reverse = ':' :: "yrt".data from rfl, List.cons_append,
    List.dropWhile_cons]
  simp only [show (':' : Char).isWhitespace = false from rfl, Bool.false_eq_true,
    if_false, List.reverse_cons, List.reverse_append, List.reverse_reverse]
  simp

lemma pyStrip_mkIndent_try (t : Nat) :
    pyStrip (mkIndent t ++ "try:") = "try:" := by
  apply String.ext
  show stripL (stripR (mkIndent t ++ "try:").data) = "try:".data
  rw [String.data_append, show (mkIndent t).data = List.replicate t ' ' from rfl,
    stripR_try, stripL_replicate_append]
  rfl

lemma indentOf_mkIndent_try (t : Nat) :
    indentOf (mkIndent t ++ "try:") = t := by
  unfold indentOf
  rw [String.data_append, show (mkIndent t).data = List.replicate t ' ' from rfl,
    stripL_replicate_append]
  rw [show stripL "try:".data = "try:".data from rfl]
  simp

lemma scanTry_body_cons (t : Nat) (c : String) (cs : List String)
    (hne : pyStrip c ≠ "") (hgt : t < indentOf c) :
    scanTry t (c :: cs) =
      ((c :: (scanTry t cs).1), (scanTry t cs).2.1, (scanTry t cs).2.2) := by
  have h1 : ¬ (indentOf c = t) := by omega
  have h2 : ¬ (indentOf c ≤ t) := by omega
  rw [scanTry]
  simp [hne, h1, h2]

lemma scanTry_append_body (t : Nat) (B C : List String)
    (hB : ∀ l ∈ B, pyStrip l ≠ "" ∧ t < indentOf l) :
    scanTry t (B ++ C) =
      ((B ++ (scanTry t C).1), (scanTry t C).2.1, (scanTry t C).2.2) := by
  induction B with
  | nil => simp
  | cons b B' ih =>
    rw [List.cons_append,
      scanTry_body_cons t b (B' ++ C) (hB b (by simp)).1 (hB b (by simp)).2,
      ih (fun x hx => hB x (by simp [hx]))]
    simp

lemma scanTry_stop (t : Nat) (c : String) (C' : List String)
    (hne : pyStrip c ≠ "") (hle : indentOf c ≤ t)
    (hcom : startsWithS (pyStrip c) "#" = false)
    (hnh : isHandlerStart (pyStrip c) = false) :
    scanTry t (c :: C') = ([], false, c :: C') := by
  rw [scanTry]
  simp [hne, hle, hcom, hnh]

lemma secondPass_plain_cons (l : String) (rest : List String)
    (h : isBlockStart (pyStrip l) = false) :
    secondPass (l :: rest) = l :: secondPass rest := by
  obtain ⟨-, -, ht⟩ := isBlockStart_false h
  rw [secondPass_cons]
  simp [ht]

lemma secondPass_plain (C : List String)
    (h : ∀ l ∈ C, isBlockStart (pyStrip l) = false) :
    secondPass C = C := by
  induction C with
  | nil => rfl
  | cons l rest ih =>
    rw [secondPass_plain_cons l rest (h l (by simp)), ih (fun x hx => h x (by simp [hx]))]

lemma secondPass_append_plain (A xs : List String)
    (hA : ∀ l ∈ A, isBlockStart (pyStrip l) = false) :
    secondPass (A ++ xs) = A ++ secondPass xs := by
  induction A with
  | nil => rfl
  | cons a A' ih =>
    rw [List.cons_append, secondPass_plain_cons _ _ (hA a (by simp)),
      ih (fun x hx => hA x (by simp [hx])), List.cons_append]

/-! Helper lemmas for the universal handler-synthesis theorem. -/

lemma stripR_append (L X : List Char) :
    stripR (L ++ X) = if stripR X = [] then stripR L else L ++ stripR X := by
  unfold stripR
  rw [List.reverse_append, List.dropWhile_append]
  by_cases h : (X.reverse.dropWhile Char.isWhitespace).isEmpty = true
  · rw [if_pos h]
    rw [List.isEmpty_iff] at h
    rw [if_pos]
    rw [h]
    rfl
  · rw [if_neg h]
    rw [List.isEmpty_iff] at h
    rw [if_neg]
    · rw [List.reverse_append, List.reverse_reverse]
    · intro hc
      exact h (by simpa using congrArg List.reverse hc)

lemma stripL_length_le (l : List Char) : (stripL l).length ≤ l.length :=
  (List.dropWhile_sublist _).length_le

lemma pyStrip_mkIndent_append (t : Nat) (s : String) :
    pyStrip (mkIndent t ++ s) = pyStrip s := by
  apply String.ext
  show stripL (stripR ((mkIndent t).data ++ s.data)) = stripL (stripR s.data)
  rw [show (mkIndent t).data = List.replicate t ' ' from rfl, stripR_append]
  by_cases h : stripR s.data = []
  · rw [if_pos h, h]
    unfold stripR
    rw [List.reverse_replicate]
    have : List.dropWhile Char.isWhitespace (List.replicate t ' ') = [] := by
      induction t with
      | zero => rfl
      | succ n ih => rw [List.replicate_succ, List.dropWhile_cons]; simp [ih]
    rw [this]
    rfl
  · rw [if_neg h, stripL_replicate_append]

lemma indentOf_mkIndent_append (t : Nat) (s : String) :
    indentOf (mkIndent t ++ s) = t + indentOf s := by
  unfold indentOf
  rw [String.data_append, show (mkIndent t).data = List.replicate t ' ' from rfl,
    stripL_replicate_append, List.length_append, List.length_replicate]
  have := stripL_length_le s.data
  omega

lemma isPrefixOf_cons_head {a : Char} {as l : List Char}
    (h : (a :: as).isPrefixOf l = true) : ∃ bs, l = a :: bs ∧ as.isPrefixOf bs = true := by
  cases l with
  | nil => simp [List.isPrefixOf] at h
  | cons b bs =>
    rw [show (a :: as).isPrefixOf (b :: bs) = (a == b && as.isPrefixOf bs) from rfl,
      Bool.and_eq_true, beq_iff_eq] at h
    exact ⟨bs, by rw [h.1], h.2⟩

lemma handler_not_try {st : String} (h : isHandlerStart st = true) :
    startsWithS st "try:" = false := by
  unfold isHandlerStart at h
  unfold startsWithS at h ⊢
  rcases Bool.or_eq_true_iff.mp h with he | hf
  · rw [show "except".data = 'e' :: "xcept".data from rfl] at he
    obtain ⟨bs, hbs, -⟩ := isPrefixOf_cons_head he
    rw [hbs, show "try:".data = 't' :: "ry:".data from rfl,
      show ('t' :: "ry:".data).isPrefixOf ('e' :: bs) =
        (('t' : Char) == 'e' && "ry:".data.isPrefixOf bs) from rfl,
      show (('t' : Char) == 'e') = false from by decide, Bool.false_and]
  · rw [show "finally:".data = 'f' :: "inally:".data from rfl] at hf
    obtain ⟨bs, hbs, -⟩ := isPrefixOf_cons_head hf
    rw [hbs, show "try:".data = 't' :: "ry:".data from rfl,
      show ('t' :: "ry:".data).isPrefixOf ('f' :: bs) =
        (('t' : Char) == 'f' && "ry:".data.isPrefixOf bs) from rfl,
      show (('t' : Char) == 'f') = false from by decide, Bool.false_and]

lemma scanTry_stop_handler (t : Nat) (c : String) (xs : List String)
    (hne : pyStrip c ≠ "") (hind : indentOf c = t)
    (hh : isHandlerStart (pyStrip c) = true) :
    scanTry t (c :: xs) = ([], true, c :: xs) := by
  rw [scanTry]
  simp [hne, hind, hh]

lemma scanTry_body_append (t : Nat) (ls xs : List String) :
    scanTry t ((scanTry t ls).1 ++ xs) =
      ((scanTry t ls).1 ++ (scanTry t xs).1, (scanTry t xs).2.1, (scanTry t xs).2.2) := by
  induction ls with
  | nil => simp [scanTry]
  | cons c cs ih =>
    rw [scanTry]
    dsimp only
    by_cases h1 : ((if pyStrip c ≠ "" then indentOf c else t + 1) = t ∧
        isHandlerStart (pyStrip c) = true)
    · simp only [h1, and_self, if_pos]
      simp [h1]
    · rw [if_neg h1]
      by_cases h2 : ((if pyStrip c ≠ "" then indentOf c else t + 1) ≤ t ∧
          ¬ pyStrip c = "" ∧ startsWithS (pyStrip c) "#" = false)
      · simp only [h2, if_pos]
        simp [h2]
      · rw [if_neg h2]
        rw [List.cons_append, scanTry]
        dsimp only
        rw [if_neg h1, if_neg h2]
        rw [ih]
        simp

lemma scanTry_handler_head (t : Nat) (ls : List String)
    (h : (scanTry t ls).2.1 = true) :
    ∃ c cs, (scanTry t ls).2.2 = c :: cs ∧ pyStrip c ≠ "" ∧ indentOf c = t ∧
      isHandlerStart (pyStrip c) = true := by
  induction ls with
  | nil => simp [scanTry] at h
  | cons c cs ih =>
    rw [scanTry] at h ⊢
    dsimp only at h ⊢
    by_cases h1 : ((if pyStrip c ≠ "" then indentOf c else t + 1) = t ∧
        isHandlerStart (pyStrip c) = true)
    · rw [if_pos h1] at h ⊢
      have hne : pyStrip c ≠ "" := by
        by_contra hne
        rw [if_neg (by simp [hne])] at h1
        have := h1.1
        omega
      refine ⟨c, cs, rfl, hne, ?_, h1.2⟩
      rw [if_pos hne] at h1
      exact h1.1
    · rw [if_neg h1] at h ⊢
      by_cases h2 : ((if pyStrip c ≠ "" then indentOf c else t + 1) ≤ t ∧
          ¬ pyStrip c = "" ∧ startsWithS (pyStrip c) "#" = false)
      · rw [if_pos h2] at h
        simp at h
      · rw [if_neg h2] at h ⊢
        exact ih h

lemma scanTry_handlerLines (t : Nat) (xs : List String) :
    scanTry t (handlerLines t ++ xs) = ([], true, handlerLines t ++ xs) := by
  have hps : pyStrip (mkIndent t ++ "except Exception as e:") = "except Exception as e:" :=
    (pyStrip_mkIndent_append t _).trans (by decide)
  have hind : indentOf (mkIndent t ++ "except Exception as e:") = t := by
    rw [indentOf_mkIndent_append,
      show indentOf "except Exception as e:" = 0 from by decide]
    omega
  show scanTry t ((mkIndent t ++ "except Exception as e:") :: _) = _
  rw [scanTry_stop_handler t _ _ (by rw [hps]; decide) hind (by rw [hps]; decide)]
  rfl

lemma topTriesGo_fuel (f₁ : Nat) :
    ∀ (f₂ : Nat) (ls : List String), ls.length ≤ f₁ → ls.length ≤ f₂ →
      topTriesGo f₁ ls = topTriesGo f₂ ls := by
  induction f₁ with
  | zero =>
    intro f₂ ls h₁ h₂
    have hls : ls = [] := List.length_eq_zero.mp (Nat.le_zero.mp h₁)
    subst hls
    cases f₂ <;> rfl
  | succ f ih =>
    intro f₂ ls h₁ h₂
    cases ls with
    | nil => cases f₂ <;> rfl
    | cons l rest =>
      cases f₂ with
      | zero => simp at h₂
      | succ g =>
        rw [topTriesGo, topTriesGo]
        simp only [List.length_cons] at h₁ h₂
        by_cases htry : startsWithS (pyStrip l) "try:" = true
        · simp only [htry, if_true]
          have hr := scanTry_rest_length (indentOf l) rest
          rw [ih g _ (by omega) (by omega)]
        · simp only [htry, Bool.false_eq_true, if_false]
          rw [ih g rest (by omega) (by omega)]

lemma topTries_cons (l : String) (rest : List String) :
    topTriesHandled (l :: rest) =
      if startsWithS (pyStrip l) "try:" then
        ((scanTry (indentOf l) rest).2.1 &&
          topTriesHandled (scanTry (indentOf l) rest).2.2)
      else topTriesHandled rest := by
  show topTriesGo (rest.length + 1) (l :: rest) = _
  rw [topTriesGo]
  by_cases htry : startsWithS (pyStrip l) "try:" = true
  · simp only [htry, if_true]
    rw [topTriesGo_fuel rest.length _ _ (scanTry_rest_length _ _) le_rfl]
    rfl
  · simp only [htry, Bool.false_eq_true, if_false]
    rfl

/-- Every script the second pass produces has a same-indentation
handler for every `try:` that is not nested inside another `try:`
block's scanned body. -/
lemma topTries_secondPass (n : Nat) :
    ∀ ls : List String, ls.length ≤ n → topTriesHandled (secondPass ls) = true := by
  induction n with
  | zero =>
    intro ls h
    have hls : ls = [] := List.length_eq_zero.mp (Nat.le_zero.mp h)
    subst hls
    rfl
  | succ n ih =>
    intro ls hlen
    cases ls with
    | nil => rfl
    | cons l rest =>
      simp only [List.length_cons] at hlen
      rw [secondPass_cons]
      by_cases htry : startsWithS (pyStrip l) "try:" = true
      · simp only [htry, if_true]
        have hrl := scanTry_rest_length (indentOf l) rest
        by_cases hh : (scanTry (indentOf l) rest).2.1 = true
        · simp only [hh, if_true, List.append_nil]
          obtain ⟨c, cs, hrest, hcne, hcind, hchand⟩ :=
            scanTry_handler_head (indentOf l) rest hh
          rw [hrest] at hrl ⊢
          have hcnottry : startsWithS (pyStrip c) "try:" = false := handler_not_try hchand
          rw [secondPass_cons]
          simp only [hcnottry, Bool.false_eq_true, if_false]
          rw [topTries_cons]
          simp only [htry, if_true]
          rw [scanTry_body_append (indentOf l) rest (c :: secondPass cs)]
          rw [scanTry_stop_handler (indentOf l) c (secondPass cs) hcne hcind hchand]
          simp only [Bool.true_and]
          rw [topTries_cons]
          simp only [hcnottry, Bool.false_eq_true, if_false]
          apply ih
          simp only [List.length_cons] at hrl
          omega
        · simp only [hh, Bool.false_eq_true, if_false]
          rw [topTries_cons]
          simp only [htry, if_true]
          rw [List.append_assoc]
          rw [scanTry_body_append (indentOf l) rest
            (handlerLines (indentOf l) ++ secondPass (scanTry (indentOf l) rest).2.2)]
          rw [scanTry_handlerLines]
          simp only [Bool.true_and]
          have hnt1 : startsWithS
              (pyStrip (mkIndent (indentOf l) ++ "except Exception as e:")) "try:" = false := by
            rw [pyStrip_mkIndent_append]
            decide
          have hnt2 : startsWithS
              (pyStrip (mkIndent (indentOf l) ++ "    print(f\x27Error: \x7be\x7d\x27)"))
              "try:" = false := by
            rw [pyStrip_mkIndent_append]
            decide
          have hnt3 : startsWithS
              (pyStrip (mkIndent (indentOf l) ++ "    pass")) "try:" = false := by
            rw [pyStrip_mkIndent_append]
            decide
          rw [show handlerLines (indentOf l) ++ secondPass (scanTry (indentOf l) rest).2.2 =
            (mkIndent (indentOf l) ++ "except Exception as e:") ::
              (mkIndent (indentOf l) ++ "    print(f\x27Error: \x7be\x7d\x27)") ::
                (mkIndent (indentOf l) ++ "    pass") ::
                  secondPass (scanTry (indentOf l) rest).2.2 from rfl]
          rw [topTries_cons]
          simp only [hnt1, Bool.false_eq_true, if_false]
          rw [topTries_cons]
          simp only [hnt2, Bool.false_eq_true, if_false]
          rw [topTries_cons]
          simp only [hnt3, Bool.false_eq_true, if_false]
          exact ih _ (by omega)
      · simp only [htry, Bool.false_eq_true, if_false]
        rw [topTries_cons]
        simp only [htry, Bool.false_eq_true, if_false]
        exact ih rest (by omega)

/-- C1: For all non-negative integers (source, snowflake, processed),
`_validate_record_counts` returns the verdict described by the spec's
decision list, echoes the three input counts, and maps the six sample
triples to success/failed/success/warning/failed/warning respectively. -/
theorem c1_record_count_verdict :
    (∀ s d p : Nat,
      validateRecordCounts s d p = ⟨specVerdict s d p, s, d, p⟩) ∧
    (validateRecordCounts 100 100 100).status = .success ∧
    (validateRecordCounts 100 0 80).status = .failed ∧
    (validateRecordCounts 100 96 96).status = .success ∧
    (validateRecordCounts 100 90 0).status = .warning ∧
    (validateRecordCounts 100 70 0).status = .failed ∧
    (validateRecordCounts 0 5 5).status = .warning := by
  refine ⟨?_, by decide, by decide, by decide, by decide, by decide, by decide⟩
  intro s d p
  unfold validateRecordCounts specVerdict
  split_ifs <;> first | rfl | (exfalso; omega)

/-- C6: `_find_primary_key_candidates` returns, in column order,
exactly the columns classified by the claim: high confidence iff
distinct-count equals the row count with zero nulls, medium confidence
iff the 95%/5% bounds hold but the high bar is not met, and nothing
otherwise. -/
theorem c6_primary_key_candidates :
    ∀ df : DataFrame,
      findPrimaryKeyCandidates df = df.cols.filterMap (specPkClassify df.nrows) := by
  intro df
  unfold findPrimaryKeyCandidates
  congr 1
  funext c
  unfold pkClassify specPkClassify
  by_cases h : c.uniqueCount = df.nrows ∧ c.nullCount = 0 <;> simp [h]

/-- C7: `_find_date_columns` contributes per column, in column order:
a datetime-typed column with at most one distinct value contributes
nothing, with more than one it contributes a high-confidence
candidate; a numeric-typed column never contributes; a string-typed
column with ≥80% parsed dates and more than one distinct parsed value
contributes a high-confidence candidate, and one with ≥50% parsed
dates (not meeting the 80% rule) a medium-confidence candidate. -/
theorem c7_date_columns :
    (∀ df : ProfiledFrame, findDateColumns df = df.cols.flatMap (dateCol df.nrows)) ∧
    (∀ (n : Nat) (c : DfColumn),
      (c.dtype = .datetime → c.distinctCount ≤ 1 → dateCol n c = []) ∧
      (c.dtype = .datetime → c.distinctCount > 1 → dateCol n c = [⟨c.name, .high⟩]) ∧
      (c.dtype = .numeric → dateCol n c = []) ∧
      (c.dtype = .other → 100 * c.parsedValid ≥ 80 * n → c.parsedDistinct > 1 →
        dateCol n c = [⟨c.name, .high⟩]) ∧
      (c.dtype = .other → ¬ (100 * c.parsedValid ≥ 80 * n ∧ c.parsedDistinct > 1) →
        100 * c.parsedValid ≥ 50 * n → dateCol n c = [⟨c.name, .medium⟩])) ∧
    (∀ (df : ProfiledFrame) (c : DfColumn), c ∈ df.cols → c.dtype = .datetime →
      c.distinctCount > 1 → (⟨c.name, .high⟩ : DateCandidate) ∈ findDateColumns df) ∧
    (∀ (df : ProfiledFrame) (c : DfColumn), c ∈ df.cols → c.dtype = .numeric →
      ∀ x ∈ findDateColumns df, x.column = c.name →
        ∃ c' ∈ df.cols, c' ≠ c ∧ c'.name = c.name) := by
  refine ⟨findDateColumns_eq, ?_, ?_, ?_⟩
  · intro n c
    refine ⟨?_, ?_, ?_, ?_, ?_⟩ <;> intro h1 <;> unfold dateCol <;> rw [h1] <;>
      simp <;> intros <;> split_ifs <;> simp_all <;> omega
  · intro df c hc hdt hgt
    rw [findDateColumns_eq]
    rw [List.mem_flatMap]
    refine ⟨c, hc, ?_⟩
    unfold dateCol
    rw [hdt]
    simp [hgt]
  · intro df c hc hnum x hx hxname
    rw [findDateColumns_eq, List.mem_flatMap] at hx
    obtain ⟨c', hc', hxc'⟩ := hx
    refine ⟨c', hc', ?_, ?_⟩
    · intro heq
      subst heq
      unfold dateCol at hxc'
      rw [hnum] at hxc'
      simp at hxc'
    · rw [← dateCol_column df.nrows c' x hxc', hxname]

/-- C7 witness: a datetime column with three distinct values is
classified high; a whole frame evaluates as the per-column
decomposition predicts. -/
theorem c7_date_columns_witness :
    dateCol 10 ⟨"ts", .datetime, 3, 0, 0⟩ = [⟨"ts", .high⟩] ∧
    dateCol 10 ⟨"s", .other, 0, 9, 4⟩ = [⟨"s", .high⟩] ∧
    dateCol 10 ⟨"t", .other, 0, 6, 1⟩ = [⟨"t", .medium⟩] ∧
    dateCol 10 ⟨"k", .numeric, 10, 10, 10⟩ = [] ∧
    dateCol 10 ⟨"u", .datetime, 1, 0, 0⟩ = [] := by
  refine ⟨(c7_date_columns.2.1 10 _).2.1 rfl (by decide),
    (c7_date_columns.2.1 10 _).2.2.2.1 rfl (by decide) (by decide),
    (c7_date_columns.2.1 10 _).2.2.2.2 rfl (by decide) (by decide),
    (c7_date_columns.2.1 10 _).2.2.1 rfl,
    (c7_date_columns.2.1 10 _).1 rfl (by decide)⟩

/-- C10: each column of a dataframe whose column names are distinct
appears at most once in the temporal-candidate list: the name
heuristic only appends when the column's record is not already
present, so the candidate names form a sublist of the column names. -/
theorem c10_date_candidates_nodup :
    ∀ df : ProfiledFrame, (df.cols.map DfColumn.name).Nodup →
      ((findDateColumns df).map DateCandidate.column).Nodup := by
  intro df h
  rw [findDateColumns_eq]
  exact (dateCol_names_sub df.nrows df.cols).nodup h

/-- C10 witness: a frame with a column that is both name-suggestive
(`order_date`) and 60% date-parsable yields it exactly once. -/
theorem c10_date_candidates_nodup_witness :
    ((findDateColumns ⟨10, [⟨"order_date", .other, 0, 6, 3⟩, ⟨"id", .numeric, 10, 0, 0⟩]⟩).map
      DateCandidate.column).Nodup :=
  c10_date_candidates_nodup _ (by decide)

/-- C5: configuration injection composed with itself leaves exactly
one configuration block: every line whose stripped text starts with
`SNOWFLAKE_CONFIG` or `AWS_CONFIG` triggers the cleaning skip and is
dropped, so re-injection first removes the previously injected
definitions and then inserts the single canonical block. -/
theorem c5_inject_idempotent :
    ∀ ls : List String,
      countConfigDefs "SNOWFLAKE_CONFIG" (injectLines (injectLines ls)) = 1 ∧
      countConfigDefs "AWS_CONFIG" (injectLines (injectLines ls)) = 1 := by
  intro ls
  constructor
  · apply inject_count_one "SNOWFLAKE_CONFIG" (by decide) (by decide)
    intro st h
    unfold isConfigTrigger at h
    simp only [Bool.or_eq_false_iff] at h
    exact h.1.1.2
  · apply inject_count_one "AWS_CONFIG" (by decide) (by decide)
    intro st h
    unfold isConfigTrigger at h
    simp only [Bool.or_eq_false_iff] at h
    exact h.1.1.1

/-- C3 counterexample: with two occurrences of the `Successfully
loaded N rows` marker, the Validate stage's `rows_processed` uses the
*first* match (5), not the last one (7), refuting "extracts the last
match of each pattern". -/
theorem c3_last_match_counterexample :
    rowsProcessedOf
      "Successfully loaded 5 rows from a.csv\nSuccessfully loaded 7 rows from b.csv" = 5 ∧
    (findallS "Successfully loaded " " rows"
      "Successfully loaded 5 rows from a.csv\nSuccessfully loaded 7 rows from b.csv").getLast? =
      some 7 := by
  constructor <;> decide

/-- C3 (amended): the Validate stage extracts the *first* match of
`Successfully loaded N rows`, the *first* match of `N rows remaining`,
the *last* match of `✅ Successfully inserted N rows`, and the *first*
successful-rows count of the structured insertion-summary block. -/
theorem c3_amended_match_choice :
    (∀ out : String,
      containsSub out "Successfully loaded" = true →
      containsSub out "rows from" = true →
      containsSub out "Data transformation completed" = false →
      rowsProcessedOf out = ((findallS "Successfully loaded " " rows" out).head?).getD 0) ∧
    (∀ out : String,
      containsSub out "Successfully loaded" = false →
      containsSub out "Data transformation completed" = true →
      containsSub out "rows remaining" = true →
      rowsProcessedOf out = ((findallS "" " rows remaining" out).head?).getD 0) ∧
    (∀ out : String,
      containsSub out "✅ Successfully inserted" = true →
      insertedRowsOf out =
        ((findallS "✅ Successfully inserted " " rows" out).getLast?).getD 0) ∧
    (∀ out : String,
      containsSub out "✅ Successfully inserted" = false →
      containsSub out "📊 Insertion Summary:" = true →
      insertedRowsOf out = ((findallS "✅ Successful rows: " "" out).head?).getD 0) := by
  refine ⟨?_, ?_, ?_, ?_⟩
  · intro out h1 h2 h3
    unfold rowsProcessedOf
    rw [h1, h2, h3]
    simp only [Bool.true_and, Bool.false_and, Bool.false_eq_true, if_false, if_true]
    cases (findallS "Successfully loaded " " rows" out).head? <;> rfl
  · intro out h1 h2 h3
    unfold rowsProcessedOf
    rw [h1, h2, h3]
    simp only [Bool.false_and, Bool.true_and, Bool.false_eq_true, if_false, if_true]
    cases (findallS "" " rows remaining" out).head? with
    | none => rfl
    | some n => simp [Option.getD]
  · intro out h1
    unfold insertedRowsOf
    rw [h1]
    simp only [if_true]
    cases (findallS "✅ Successfully inserted " " rows" out).getLast? <;> rfl
  · intro out h1 h2
    unfold insertedRowsOf
    rw [h1, h2]
    simp only [Bool.false_eq_true, if_false, if_true]
    cases (findallS "✅ Successful rows: " "" out).head? <;> rfl

/-- C3 amended witness: concrete outputs exercising the first-match
and last-match rules. -/
theorem c3_amended_match_choice_witness :
    rowsProcessedOf
      "Successfully loaded 5 rows from a.csv\nSuccessfully loaded 7 rows from b.csv" = 5 ∧
    insertedRowsOf
      "✅ Successfully inserted 3 rows ... ✅ Successfully inserted 44 rows" = 44 := by
  constructor
  · rw [c3_amended_match_choice.1 _ (by decide) (by decide) (by decide)]
    decide
  · rw [c3_amended_match_choice.2.2.1 _ (by decide)]
    decide

/-- C4 counterexample: a nested `try:` block lacking a handler is
appended unchanged by `_fix_script_syntax` and still has no `except`
clause at its indentation afterwards (so the result is not parseable
Python) — both when the outer `try:` is itself unhandled (a handler is
synthesized only for the outer one) and when the outer `try:` already
has a handler (the script is returned completely unchanged). -/
theorem c4_nested_try_counterexample :
    (fixScriptSyntax ["try:", "    try:", "        x = 1", "y = 2"] =
      ["try:", "    try:", "        x = 1",
       "except Exception as e:", "    print(f\x27Error: \x7be\x7d\x27)", "    pass",
       "y = 2"] ∧
     allTriesHandled (fixScriptSyntax ["try:", "    try:", "        x = 1", "y = 2"]) =
       false) ∧
    (fixScriptSyntax ["try:", "    try:", "        a = 1", "except Exception:", "    pass"] =
      ["try:", "    try:", "        a = 1", "except Exception:", "    pass"] ∧
     allTriesHandled
       (fixScriptSyntax
         ["try:", "    try:", "        a = 1", "except Exception:", "    pass"]) =
       false) := by
  exact ⟨⟨by decide, by decide⟩, ⟨by decide, by decide⟩⟩

/-- C4 (amended): after structural repair, every `try:` block that is
not nested inside the scanned body of another `try:` block (handled or
not) has a same-indentation `except`/`finally` handler before its
block ends; the second pass inserts exactly the three generic handler
lines, at the `try:`\x27s own indentation, between the body and the rest
of the script when the `try:` lacks a handler, and inserts nothing
when a handler is already present.  A `try:` nested inside the body of
another `try:` block is bulk-appended unchanged and may remain without
a handler, so the repaired text can still fail to parse. -/
theorem c4_amended_try_repair :
    (∀ ls : List String, topTriesHandled (fixScriptSyntax ls) = true) ∧
    (∀ (l : String) (rest : List String),
      startsWithS (pyStrip l) "try:" = true →
      (scanTry (indentOf l) rest).2.1 = false →
      secondPass (l :: rest) =
        l :: ((scanTry (indentOf l) rest).1 ++
          (handlerLines (indentOf l) ++ secondPass (scanTry (indentOf l) rest).2.2))) ∧
    (∀ (l : String) (rest : List String),
      startsWithS (pyStrip l) "try:" = true →
      (scanTry (indentOf l) rest).2.1 = true →
      secondPass (l :: rest) =
        l :: ((scanTry (indentOf l) rest).1 ++
          secondPass (scanTry (indentOf l) rest).2.2)) := by
  refine ⟨?_, ?_, ?_⟩
  · intro ls
    exact topTries_secondPass (firstPass ls).length (firstPass ls) le_rfl
  · intro l rest h1 h2
    rw [secondPass_cons]
    simp [h1, h2]
  · intro l rest h1 h2
    rw [secondPass_cons]
    simp [h1, h2]

/-- C4 amended witness: a single unhandled `try:` gets exactly the
three handler lines inserted after its body. -/
theorem c4_amended_try_repair_witness :
    secondPass ["try:", "    x = 1", "y = 2"] =
      "try:" :: (["    x = 1"] ++ (handlerLines 0 ++ secondPass ["y = 2"])) := by
  have h := c4_amended_try_repair.2.1 "try:" ["    x = 1", "y = 2"] (by decide) (by decide)
  rw [h]
  decide

/-- C2 counterexample: for a record whose execution failed, the
Validate stage returns the record completely unchanged — it neither
counts source records nor attaches any `record_validation` verdict,
refuting the claimed best-effort log-derived reconciliation. -/
theorem c2_skip_validation_counterexample :
    failedRunState.execution_success = false ∧
    validateIngestionNode sampleValidateEnv failedRunState = failedRunState ∧
    (validateIngestionNode sampleValidateEnv failedRunState).record_validation = none ∧
    (validateIngestionNode sampleValidateEnv failedRunState).source_record_count = 0 := by
  refine ⟨rfl, rfl, rfl, rfl⟩

/-- C2 (amended): when `execution_success` is false the Validate stage
skips *all* reconciliation and returns the WorkflowRecord unchanged
(no source counting, no log mining, no verdict attached). -/
theorem c2_amended_skip_everything (env : ValidateEnv) (st : WorkflowState)
    (h : st.execution_success = false) :
    validateIngestionNode env st = st := by
  unfold validateIngestionNode
  rw [h]
  simp

/-- C2 amended witness. -/
theorem c2_amended_skip_everything_witness :
    validateIngestionNode sampleValidateEnv failedRunState = failedRunState :=
  c2_amended_skip_everything sampleValidateEnv failedRunState rfl

/-- A compiler oracle under which the original script and its repaired
version fail with distinct errors. -/
def stubbornCompile : String → Option String :=
  fun s => if s = "try:" then some "alpha" else some "beta"

/-- A record about to save the unrepairable script `try:`. -/
def brokenScriptState : WorkflowState :=
  { failedRunState with generated_script := "try:", execution_error := none }

/-- C8 counterexample: when neither the original nor the repaired
script compiles, the warning banner embeds the error of the *repaired*
script (`beta`), not the original parse error (`alpha`), refuting
"containing the original parse error". -/
theorem c8_header_error_counterexample :
    stubbornCompile brokenScriptState.generated_script = some "alpha" ∧
    containsSub (saveScriptNode stubbornCompile brokenScriptState).1.generated_script
      "beta" = true ∧
    containsSub (saveScriptNode stubbornCompile brokenScriptState).1.generated_script
      "alpha" = false := by
  refine ⟨rfl, by decide, by decide⟩

/-- C8 (amended): when neither the original nor the repaired script
compiles, the Save stage prepends a warning banner containing the
parse error of the *repaired* script (labelled "Original error"),
still writes the script file, marks the record saved, and writes a
separate debug copy whose content ends with the pre-repair script
text. -/
theorem c8_amended_save_always (compileCheck : String → Option String)
    (st : WorkflowState) (e e2 : String)
    (h1 : compileCheck st.generated_script = some e)
    (h2 : compileCheck (fixScriptSyntaxStr st.generated_script) = some e2) :
    (saveScriptNode compileCheck st).1.status = "script_saved" ∧
    (saveScriptNode compileCheck st).1.script_path =
      some (st.workflow_id ++ "_etl_script.py") ∧
    (saveScriptNode compileCheck st).1.generated_script =
      warningHeader e2 st.workflow_id ++ st.generated_script ∧
    (saveScriptNode compileCheck st).2 =
      [(st.workflow_id ++ "_etl_script.py",
        warningHeader e2 st.workflow_id ++ st.generated_script),
       (st.workflow_id ++ "_debug_original.py",
        debugPrefix ++ (warningHeader e2 st.workflow_id ++ st.generated_script))] := by
  unfold saveScriptNode
  simp only [h1, h2]
  refine ⟨?_, ?_, ?_, ?_⟩ <;> trivial

/-- C8 amended witness. -/
theorem c8_amended_save_always_witness :
    (saveScriptNode stubbornCompile brokenScriptState).1.status = "script_saved" ∧
    (saveScriptNode stubbornCompile brokenScriptState).1.generated_script =
      warningHeader "beta" brokenScriptState.workflow_id ++
        brokenScriptState.generated_script := by
  have h := c8_amended_save_always stubbornCompile brokenScriptState "alpha" "beta"
    (by decide) (by decide)
  exact ⟨h.1, h.2.2.1⟩

/-- C9 counterexample: the workflow identifier contains no counter —
two distinct runs initialized at the same instant receive identical
identifiers. -/
theorem c9_same_instant_counterexample :
    (initializeWorkflow ⟨2026, 10, 12, 12, 0, 0⟩ failedRunState).workflow_id =
      (initializeWorkflow ⟨2026, 10, 12, 12, 0, 0⟩
        { failedRunState with user_requirements := "another run" }).workflow_id ∧
    failedRunState ≠ { failedRunState with user_requirements := "another run" } ∧
    (initializeWorkflow ⟨2026, 10, 12, 12, 0, 0⟩ failedRunState).workflow_id =
      "etl_20261012_120000" := by
  refine ⟨rfl, by decide, by decide⟩

/-- C9 (amended): the Initialize stage assigns
`workflow_id = "etl_" + strftime('%Y%m%d_%H%M%S')` — a timestamp with
no counter, so simultaneous runs collide — and no later stage
(Profile, Generate, Save, Execute, Validate, Finalize) ever changes
it. -/
theorem c9_amended_workflow_id :
    (∀ (now : Timestamp) (st : WorkflowState),
      (initializeWorkflow now st).workflow_id = "etl_" ++ formatTs now) ∧
    (∀ (res : Except Unit Profiling) (st : WorkflowState),
      (profileDataNode res st).workflow_id = st.workflow_id) ∧
    (∀ (env : GenEnv) (st : WorkflowState),
      (generateScriptNode env st).workflow_id = st.workflow_id) ∧
    (∀ (c : String → Option String) (st : WorkflowState),
      (saveScriptNode c st).1.workflow_id = st.workflow_id) ∧
    (∀ (run : RunResult) (st : WorkflowState),
      (executeScriptNode run st).workflow_id = st.workflow_id) ∧
    (∀ (env : ValidateEnv) (st : WorkflowState),
      (validateIngestionNode env st).workflow_id = st.workflow_id) ∧
    (∀ st : WorkflowState, (finalizeWorkflow st).workflow_id = st.workflow_id) := by
  refine ⟨fun now st => rfl, ?_, ?_, ?_, ?_, ?_, fun st => rfl⟩
  · intro res st
    unfold profileDataNode
    (repeat' split) <;> rfl
  · intro env st
    unfold generateScriptNode fallbackTemplate
    dsimp only
    (repeat' split) <;> rfl
  · intro c st
    unfold saveScriptNode
    dsimp only
    (repeat' split) <;> rfl
  · intro run st
    unfold executeScriptNode
    (repeat' split) <;> rfl
  · intro env st
    unfold validateIngestionNode validateTail
    dsimp only
    (repeat' split) <;> rfl

end ETL
